import Mathlib

/-!
Shallow embedding of the session-management core of the forkify-cmdline
repository (src/session_manager.py, src/document_processor.py,
src/claude.py, src/settings.py), together with theorems settling the
frozen claims about its specification.

Modeling conventions:
* Python ints are Lean Int (arbitrary precision in both languages).
* Python floats (cost accounting) are modeled as exact rationals.
* datetime values are opaque strings (isoformat round-trips exactly).
* Python exceptions are an explicit error type; fallible code returns Except.
* random.uniform draws are nondeterministic parameters constrained by
  hypotheses in the theorems.
* The sessions directory is a list of serialized session records in
  directory-scan order; file writes are functional updates of that list.
* Python list reference semantics (needed for the branch history-copy
  independence claim) are modeled by a small heap of list cells.
-/

namespace Forkify

/-- The Python exception classes distinguished by the code. -/
inductive PyError where
  | valueError (msg : String)
  | keyError (msg : String)
  | rateLimitError
  | internalServerError
deriving DecidableEq, Repr

/-- Error classification of retry_with_exponential_backoff
(document_processor.py line 29): only RateLimitError and
InternalServerError are retried. -/
def PyError.isTransient : PyError → Bool
  | .rateLimitError => true
  | .internalServerError => true
  | _ => false

/-- A message dict stored in message_window. prompt_id is none when the
dict carries no prompt_id key (as in generate_and_run_prompt, lines
501-502); messages written by ask_question always carry one. -/
structure Msg where
  role : String
  content : String
  prompt_id : Option String
deriving DecidableEq, Repr

/-- BranchInfo dataclass (session_manager.py lines 11-16).
document_hash is Option String because Session._hash_documents
(lines 194-197) is a bare pass and returns None. -/
structure BranchInfo where
  branch_name : String
  parent_id : String
  created_at : String
  document_hash : Option String
deriving DecidableEq, Repr

/-- DEFAULT_CONTEXT_WINDOW from settings.py. -/
def DEFAULT_CONTEXT_WINDOW : Int := 10

/-- Session dataclass (session_manager.py lines 23-37). -/
structure Session where
  session_id : String
  conversation_id : String
  name : String
  document_summary : String
  message_window : List Msg
  created_at : String
  last_accessed : String
  window_size : Int := DEFAULT_CONTEXT_WINDOW
  branch_info : Option BranchInfo := none
  last_prompt_id : Int := 0
  total_input_tokens : Int := 0
  total_output_tokens : Int := 0
  total_cost : ℚ := 0
deriving DecidableEq, Repr

/-- A serialized session record, as produced by Session.to_dict and
stored in sessions/<session_id>.json.  Fields read back through
dict.get with a default are Option-valued (absent key = none). -/
structure SessionData where
  session_id : String
  conversation_id : Option String
  name : String
  document_summary : String
  message_window : List Msg
  created_at : String
  last_accessed : String
  window_size : Option Int
  branch_info : Option BranchInfo
  last_prompt_id : Option Int
  total_input_tokens : Option Int
  total_output_tokens : Option Int
  total_cost : Option ℚ
deriving DecidableEq, Repr

/-- Decimal digit character. -/
def digitChar (d : Nat) : Char := Char.ofNat (48 + d)

/-- Decimal digits of n, most significant first; fuel-based so that the
kernel can evaluate it (fuel n + 1 always suffices: the recursion divides
by 10 each step). Mirrors Python decimal rendering of a nonnegative int. -/
def natDecAux : Nat → Nat → List Char
  | 0, _ => []
  | fuel + 1, n =>
    if n < 10 then [digitChar n]
    else natDecAux fuel (n / 10) ++ [digitChar (n % 10)]

/-- Decimal digit list of a natural number. -/
def natDecList (n : Nat) : List Char := natDecAux (n + 1) n

/-- Left-pad a string with zeros to width w (no-op when already wider),
as Python zero-padded formatting does for the digits part. -/
def padZeros (w : Nat) (s : String) : String :=
  String.mk (List.replicate (w - s.length) '0') ++ s

/-- Python f-string formatting with format spec 05d: pad the decimal
rendering with zeros to a minimum total width of 5 (a sign counts toward
the width). Used at session_manager.py lines 84 and 202. -/
def pyFormat05 (n : Int) : String :=
  if n < 0 then "-" ++ padZeros 4 (String.mk (natDecList (-n).toNat))
  else padZeros 5 (String.mk (natDecList n.toNat))

/-- Python list slicing l[start:] (for the window selection
message_window[-window_size:], the start is the negated window size):
a negative start counts from the end, clamped at 0; a nonnegative start
drops that many leading elements. -/
def pySliceFrom {α : Type} (l : List α) (start : Int) : List α :=
  if start < 0 then l.drop (l.length - min (-start).toNat l.length)
  else l.drop start.toNat

/-- Parse an unbroken run of decimal digits (none on empty input or any
non-digit). -/
def parseDigits (l : List Char) : Option Nat :=
  if l = [] then none
  else if l.all Char.isDigit then
    some (l.foldl (fun n c => n * 10 + (c.toNat - 48)) 0)
  else none

/-- Python int(string) restricted to an optional sign followed by
decimal digits — the shapes this program ever stores ("00001", ...);
Python additionally strips whitespace and allows digit-group
underscores, which never occur in the stored data. -/
def pyIntOfString (s : String) : Option Int :=
  match s.data with
  | '-' :: rest => (parseDigits rest).map (fun n => -(n : Int))
  | l => (parseDigits l).map (fun n => (n : Int))

/-- Python int(msg["prompt_id"]) on a message dict: a missing key raises
KeyError, a non-numeric string raises ValueError. -/
def parsePromptId : Option String → Except PyError Int
  | none => .error (.keyError "prompt_id")
  | some s =>
    match pyIntOfString s with
    | some n => .ok n
    | none => .error (.valueError s)

/-- The generator int(msg["prompt_id"]) for msg in window if role is
user, evaluated left to right (the first failure propagates). -/
def userPromptIds (l : List Msg) : Except PyError (List Int) :=
  (l.filter (fun m => m.role == "user")).mapM (fun m => parsePromptId m.prompt_id)

/-- max(int(msg["prompt_id"]) for user messages): raises ValueError on an
empty sequence, propagates parse errors (session_manager.py lines 52-58
and 155-163). -/
def maxUserPromptId (l : List Msg) : Except PyError Int :=
  match userPromptIds l with
  | .error e => .error e
  | .ok [] => .error (.valueError "max() arg is an empty sequence")
  | .ok (x :: xs) => .ok (xs.foldl max x)

/-- Session.from_dict (session_manager.py lines 135-165). freshCid
models the generate_conversation_id() fallback drawn when the record
lacks a conversation_id. When the stored counter is falsy (0) and the
window is non-empty, the counter is recomputed as the maximum user
prompt id, falling back to 0 when that raises ValueError or KeyError. -/
def Session.from_dict (freshCid : String) (data : SessionData) : Session :=
  let session : Session := {
    session_id := data.session_id
    conversation_id := data.conversation_id.getD freshCid
    name := data.name
    document_summary := data.document_summary
    message_window := data.message_window
    created_at := data.created_at
    last_accessed := data.last_accessed
    window_size := data.window_size.getD DEFAULT_CONTEXT_WINDOW
    branch_info := data.branch_info
    last_prompt_id := data.last_prompt_id.getD 0
    total_input_tokens := data.total_input_tokens.getD 0
    total_output_tokens := data.total_output_tokens.getD 0
    total_cost := data.total_cost.getD 0 }
  if session.last_prompt_id = 0 ∧ session.message_window ≠ [] then
    match maxUserPromptId session.message_window with
    | .ok m => { session with last_prompt_id := m }
    | .error _ => { session with last_prompt_id := 0 }
  else session

/-- Session.to_dict (session_manager.py lines 118-133): every field is
written out. -/
def Session.to_dict (s : Session) : SessionData :=
  { session_id := s.session_id
    conversation_id := some s.conversation_id
    name := s.name
    document_summary := s.document_summary
    message_window := s.message_window
    created_at := s.created_at
    last_accessed := s.last_accessed
    window_size := some s.window_size
    branch_info := s.branch_info
    last_prompt_id := some s.last_prompt_id
    total_input_tokens := some s.total_input_tokens
    total_output_tokens := some s.total_output_tokens
    total_cost := some s.total_cost }

/-- Session.create_new (session_manager.py lines 39-116).
store is the sessions directory in scan order (parseable files only; the
code skips JSONDecodeError files). freshId, cid, now model uuid4(),
generate_conversation_id() and datetime.now(). convWindow and convIds
model the messages and prompt ids recovered by the conversation-file
scan of output-docs/<name> (lines 70-100), which is filesystem input to
this function. If a stored record with the requested name exists, it is
reconstituted via from_dict and, when its window is non-empty, its
counter is recomputed (uncaught errors propagate); otherwise a fresh
session is built. -/
def Session.create_new (store : List SessionData) (freshId cid now : String)
    (convWindow : List Msg) (convIds : List Int)
    (name summary : String) (last_prompt_id : Int := 0) :
    Except PyError Session :=
  match store.find? (fun d => d.name == name) with
  | some data =>
    let session := Session.from_dict cid data
    if session.message_window ≠ [] then
      match maxUserPromptId session.message_window with
      | .ok m => .ok { session with last_prompt_id := m }
      | .error e => .error e
    else .ok session
  | none =>
    .ok { session_id := freshId
          conversation_id := cid
          name := name
          document_summary := summary
          message_window := convWindow
          created_at := now
          last_accessed := now
          window_size := DEFAULT_CONTEXT_WINDOW
          branch_info := none
          last_prompt_id := convIds.foldl max last_prompt_id
          total_input_tokens := 0
          total_output_tokens := 0
          total_cost := 0 }

/-- Session.get_next_prompt_id (session_manager.py lines 199-202):
increment the counter and render it with format spec 05d. -/
def Session.get_next_prompt_id (s : Session) : Session × String :=
  let s' := { s with last_prompt_id := s.last_prompt_id + 1 }
  (s', pyFormat05 s'.last_prompt_id)

/-- Session.create_branch (session_manager.py lines 167-192): reject a
branch name containing the separator (Python "/" in branch_name; for a
single character this is membership among the name's characters),
create (or recover) a session under parent_name/branch_name, attach
BranchInfo (document_hash is None since _hash_documents returns None),
and, when include_history is set, replace the new window with a copy of
the parent's. -/
def Session.create_branch (store : List SessionData) (s : Session)
    (branch_name : String) (include_history : Bool)
    (freshId cid now : String) (convWindow : List Msg) (convIds : List Int) :
    Except PyError Session :=
  if branch_name.data.contains '/' then
    .error (.valueError "Branch name cannot contain /")
  else
    let new_name := s.name ++ "/" ++ branch_name
    match Session.create_new store freshId cid now convWindow convIds
        new_name s.document_summary 0 with
    | .error e => .error e
    | .ok ns =>
      let bi : BranchInfo := { branch_name := branch_name, parent_id := s.session_id
                               created_at := now, document_hash := none }
      let ns := { ns with branch_info := some bi }
      let ns := if include_history then { ns with message_window := s.message_window } else ns
      .ok ns

/-- Overwrite-or-create of sessions/<session_id>.json: replace the first
record with this session_id, else append a new file. -/
def upsert : List SessionData → SessionData → List SessionData
  | [], d => [d]
  | x :: xs, d => if x.session_id == d.session_id then d :: xs else x :: upsert xs d

/-- SessionManager.save_session (session_manager.py lines 221-225):
refresh last_accessed, then write the full snapshot keyed by
session_id. Returns the updated store and the (mutated) session. -/
def save_session (store : List SessionData) (s : Session) (now : String) :
    List SessionData × Session :=
  let s := { s with last_accessed := now }
  (upsert store s.to_dict, s)

/-- Look up a stored record by session_id (reading the file back). -/
def findById (store : List SessionData) (sid : String) : Option SessionData :=
  store.find? (fun d => d.session_id == sid)

/-- DocumentProcessor.create_branch (document_processor.py lines
608-620): fork the current session and persist the new one. A
validation error propagates before anything is created or saved. -/
def dpCreateBranch (store : List SessionData) (s : Session)
    (branch_name : String) (include_history : Bool)
    (freshId cid now : String) (convWindow : List Msg) (convIds : List Int) :
    Except PyError (List SessionData × Session) :=
  match Session.create_branch store s branch_name include_history
      freshId cid now convWindow convIds with
  | .error e => .error e
  | .ok ns =>
    let p := save_session store ns now
    .ok p

/-- A message as placed in the outbound request body (role plus text;
ask_question drops the prompt_id when building the API messages). -/
structure ApiMsg where
  role : String
  content : String
deriving DecidableEq, Repr

/-- The history slice sent with the next request (document_processor.py
line 298): message_window[-window_size:]. -/
def contextSlice (s : Session) : List Msg :=
  pySliceFrom s.message_window (-s.window_size)

/-- The messages array built by ask_question (lines 296-323): the
context slice in order, roles preserved, followed by the new question. -/
def buildRequestMessages (s : Session) (question : String) : List ApiMsg :=
  (contextSlice s).map (fun m => { role := m.role, content := m.content }) ++
    [{ role := "user", content := question }]

/-- The session update performed by ask_question after the model call
(document_processor.py lines 362-372): draw the next prompt id, append
the question and the answer both tagged with that id, and persist.
Returns the updated store, updated session, and the id. -/
def askQuestionUpdate (store : List SessionData) (s : Session)
    (question answer now : String) :
    List SessionData × Session × String :=
  let p := Session.get_next_prompt_id s
  let user_message : Msg := { role := "user", content := question, prompt_id := some p.2 }
  let assistant_message : Msg := { role := "assistant", content := answer, prompt_id := some p.2 }
  let s1 := { p.1 with message_window := p.1.message_window ++ [user_message, assistant_message] }
  let q := save_session store s1 now
  (q.1, q.2, p.2)

/-- DocumentProcessor.reload_documents (document_processor.py lines
586-606), state update only: document loading and summary regeneration
are external I/O, modeled by the newSummary argument. Python
(context_window or DEFAULT_CONTEXT_WINDOW) treats both None and 0 as
absent. The stored message_window is replaced by its slice
message_window[-window:] and the session is saved. -/
def reload_documents (store : List SessionData) (s : Session)
    (context_window : Option Int) (newSummary now : String) :
    List SessionData × Session :=
  let window : Int :=
    match context_window with
    | none => DEFAULT_CONTEXT_WINDOW
    | some w => if w = 0 then DEFAULT_CONTEXT_WINDOW else w
  let s := { s with document_summary := newSummary
                    message_window := pySliceFrom s.message_window (-window) }
  save_session store s now

/-- Token usage reported by one API response. -/
structure Usage where
  input_tokens : Int
  output_tokens : Int
deriving DecidableEq, Repr

/-- Claude 3 Sonnet input price per 1K tokens (document_processor.py line 79). -/
def input_token_price : ℚ := 3 / 1000

/-- Claude 3 Sonnet output price per 1K tokens (document_processor.py line 80). -/
def output_token_price : ℚ := 15 / 1000

/-- DocumentProcessor._track_usage (document_processor.py lines
761-784): add the token counts to the session totals, add the
incremental cost (per-1000-token prices), and save the session
immediately. Float arithmetic is modeled exactly in ℚ. -/
def track_usage (store : List SessionData) (s : Session) (u : Usage) (now : String) :
    Session × List SessionData :=
  let s := { s with
    total_input_tokens := s.total_input_tokens + u.input_tokens
    total_output_tokens := s.total_output_tokens + u.output_tokens }
  let input_cost := (u.input_tokens : ℚ) / 1000 * input_token_price
  let output_cost := (u.output_tokens : ℚ) / 1000 * output_token_price
  let s := { s with total_cost := s.total_cost + (input_cost + output_cost) }
  let p := save_session store s now
  (p.2, p.1)

/-- Track a sequence of usages one call at a time. -/
def trackMany (store : List SessionData) (s : Session) (us : List Usage) (now : String) :
    Session × List SessionData :=
  us.foldl (fun p u => track_usage p.2 p.1 u now) (s, store)

/-- The incremental cost of one tracked call, as the spec states it. -/
def usageCost (u : Usage) : ℚ :=
  (u.input_tokens : ℚ) / 1000 * input_token_price +
    (u.output_tokens : ℚ) / 1000 * output_token_price

/-- Outcome trace of one run of the retry wrapper: the Python return
value (ok none models falling off the loop and returning None), the
sleep durations in order, and how many times the wrapped call ran. -/
structure RetryTrace (α : Type) where
  result : Except PyError (Option α)
  sleeps : List ℚ
  calls : Nat
deriving Repr

/-- The loop body of retry_with_exponential_backoff
(document_processor.py lines 23-42). f gives the outcome of each
attempt (indexed from 0); u models the random.uniform(0, 0.1) draw
before each sleep. remaining is max_retries - retry. A non-transient
error is re-raised at once; the final attempt's transient error is
re-raised; otherwise sleep delay + u(retry) * delay and double the
delay, capped at max_delay. -/
def retryGo {α : Type} (f : Nat → Except PyError α) (max_delay : ℚ) (u : Nat → ℚ) :
    Nat → Nat → ℚ → RetryTrace α
  | 0, _, _ => { result := .ok none, sleeps := [], calls := 0 }
  | remaining + 1, retry, delay =>
    match f retry with
    | .ok a => { result := .ok (some a), sleeps := [], calls := 1 }
    | .error e =>
      if e.isTransient = false then { result := .error e, sleeps := [], calls := 1 }
      else if remaining = 0 then { result := .error e, sleeps := [], calls := 1 }
      else
        let jitter := u retry * delay
        let sleep_time := delay + jitter
        let t := retryGo f max_delay u remaining (retry + 1) (min (delay * 2) max_delay)
        { result := t.result, sleeps := sleep_time :: t.sleeps, calls := t.calls + 1 }

/-- retry_with_exponential_backoff(max_retries, initial_delay,
max_delay) applied to a call whose attempt outcomes are f. -/
def retryRun {α : Type} (f : Nat → Except PyError α)
    (max_retries : Nat) (initial_delay max_delay : ℚ) (u : Nat → ℚ) : RetryTrace α :=
  retryGo f max_delay u max_retries 0 initial_delay

/-- Reference-semantics model of Python lists, for the aliasing claim
about branch history copies: a heap of list cells addressed by index. -/
abbrev MsgHeap : Type := List (List Msg)

/-- Read the list object a reference points at. -/
def heapGet (h : MsgHeap) (r : Nat) : List Msg := h.getD r []

/-- Allocate a new list object. -/
def heapAlloc (h : MsgHeap) (l : List Msg) : MsgHeap × Nat := (h ++ [l], h.length)

/-- list.append(m) on the object behind r. -/
def heapAppend (h : MsgHeap) (r : Nat) (m : Msg) : MsgHeap :=
  h.set r (heapGet h r ++ [m])

/-- Reference-level shape of create_branch lines 188-190 with
include_history: new_session.message_window = self.message_window.copy()
allocates a fresh list cell holding the parent's current contents (the
new session never aliases the parent's list object). -/
def branchWindowCopy (h : MsgHeap) (parentRef : Nat) : MsgHeap × Nat :=
  heapAlloc h (heapGet h parentRef)

/-! ## Helper lemmas -/

theorem retryGo_calls_le {α : Type} (f : Nat → Except PyError α) (md : ℚ) (u : Nat → ℚ) :
    ∀ (remaining retry : Nat) (delay : ℚ),
      (retryGo f md u remaining retry delay).calls ≤ remaining := by
  intro remaining
  induction remaining with
  | zero => intro retry delay; simp [retryGo]
  | succ m ih =>
    intro retry delay
    simp only [retryGo]
    cases hf : f retry with
    | ok a => simp
    | error e =>
      by_cases ht : e.isTransient = false
      · simp [ht]
      · by_cases hm : m = 0
        · simp [ht, hm]
        · simp [ht, hm]
          exact ih _ _

theorem min_two_pow_succ (r : Nat) :
    min (min ((2 : ℚ) ^ r) 32 * 2) 32 = min ((2 : ℚ) ^ (r + 1)) 32 := by
  rcases le_total ((2 : ℚ) ^ r) 32 with h | h
  · rw [min_eq_left h, pow_succ]
  · have h2 : (32 : ℚ) ≤ 2 ^ (r + 1) := by
      rw [pow_succ]
      nlinarith
    rw [min_eq_right h, min_eq_right h2, min_eq_right (by norm_num : (32 : ℚ) ≤ 32 * 2)]

theorem retryGo_sleeps_shape {α : Type} (f : Nat → Except PyError α) (u : Nat → ℚ) :
    ∀ (remaining retry : Nat),
      ∃ n, (retryGo f 32 u remaining retry (min ((2 : ℚ) ^ retry) 32)).sleeps =
        (List.range n).map
          (fun k => min ((2 : ℚ) ^ (retry + k)) 32 + u (retry + k) * min ((2 : ℚ) ^ (retry + k)) 32) := by
  intro remaining
  induction remaining with
  | zero => intro retry; exact ⟨0, by simp [retryGo]⟩
  | succ m ih =>
    intro retry
    simp only [retryGo]
    cases hf : f retry with
    | ok a => exact ⟨0, by simp⟩
    | error e =>
      by_cases ht : e.isTransient = false
      · exact ⟨0, by simp [ht]⟩
      · by_cases hm : m = 0
        · exact ⟨0, by simp [ht, hm]⟩
        · obtain ⟨n, hn⟩ := ih (retry + 1)
          refine ⟨n + 1, ?_⟩
          have ht' : e.isTransient = true := by
            revert ht; cases e.isTransient <;> simp
          simp only []
          rw [ht', if_neg (by simp), if_neg hm]
          simp only [min_two_pow_succ]
          rw [List.range_succ_eq_map, List.map_cons, List.map_map]
          refine congrArg₂ List.cons (by simp) ?_
          rw [hn]
          apply List.map_congr_left
          intro k _
          have hk : retry + 1 + k = retry + (k + 1) := by omega
          simp [Function.comp, hk]

/-! ## C2: at most 5 attempts, final transient error re-raised -/

/-- C2: For every wrapped call and every sequence of transient
failures, retry_with_exponential_backoff (max_retries = 5) makes at
most 5 total attempts; if all 5 attempts fail with transient errors,
the error of the 5th (final) attempt is raised to the caller and no 6th
call is attempted. -/
theorem retry_at_most_five_attempts {α : Type} (f : Nat → Except PyError α) (u : Nat → ℚ)
    (hfail : ∀ k, k < 5 → ∃ e, f k = Except.error e ∧ e.isTransient = true) :
    (∀ (g : Nat → Except PyError α) (v : Nat → ℚ), (retryRun g 5 1 32 v).calls ≤ 5) ∧
    (retryRun f 5 1 32 u).calls = 5 ∧
    (∃ e, f 4 = Except.error e ∧ (retryRun f 5 1 32 u).result = Except.error e) := by
  obtain ⟨e0, h0, t0⟩ := hfail 0 (by norm_num)
  obtain ⟨e1, h1, t1⟩ := hfail 1 (by norm_num)
  obtain ⟨e2, h2, t2⟩ := hfail 2 (by norm_num)
  obtain ⟨e3, h3, t3⟩ := hfail 3 (by norm_num)
  obtain ⟨e4, h4, t4⟩ := hfail 4 (by norm_num)
  refine ⟨fun g v => retryGo_calls_le g 32 v 5 0 1, ?_, e4, h4, ?_⟩ <;>
    simp [retryRun, retryGo, h0, t0, h1, t1, h2, t2, h3, t3, h4, t4]

/-- A wrapped call that fails with a rate limit on every attempt. -/
def allRateLimited : Nat → Except PyError Nat := fun _ => Except.error PyError.rateLimitError

/-- A jitter draw of zero before every sleep. -/
def zeroJitter : Nat → ℚ := fun _ => 0

/-- Witness for C2 at a concrete always-failing call. -/
theorem retry_at_most_five_attempts_witness :
    (retryRun allRateLimited 5 1 32 zeroJitter).calls = 5 ∧
    (retryRun allRateLimited 5 1 32 zeroJitter).result = Except.error PyError.rateLimitError := by
  have h := retry_at_most_five_attempts allRateLimited zeroJitter
    (fun k _ => ⟨PyError.rateLimitError, rfl, rfl⟩)
  refine ⟨h.2.1, ?_⟩
  obtain ⟨e, he, hr⟩ := h.2.2
  simp only [allRateLimited, Except.error.injEq] at he
  rw [← he] at hr
  exact hr

/-! ## C6: exponential backoff delays with capped doubling and jitter -/

/-- C6: In retry_with_exponential_backoff with defaults (initial delay
1, cap 32, 5 attempts), the base delay before the (k+1)-th retry is
min(2^k, 32) time-units (1, 2, 4, ... capped at 32), and each sleep
equals that base delay plus an additive jitter lying in [0, 10%] of the
base delay; in particular, 3 transient failures followed by a success
return the success after sleeping exactly 3 times with base delays
1, 2, 4. -/
theorem retry_backoff_delay_schedule {α : Type} (f : Nat → Except PyError α) (u : Nat → ℚ)
    (hu : ∀ k, 0 ≤ u k ∧ u k ≤ 1 / 10) :
    ((retryRun f 5 1 32 u).sleeps =
      (List.range (retryRun f 5 1 32 u).sleeps.length).map
        (fun k => min ((2 : ℚ) ^ k) 32 + u k * min ((2 : ℚ) ^ k) 32) ∧
     ∀ k, 0 ≤ u k * min ((2 : ℚ) ^ k) 32 ∧
       u k * min ((2 : ℚ) ^ k) 32 ≤ min ((2 : ℚ) ^ k) 32 / 10) ∧
    (∀ a, (∀ k, k < 3 → ∃ e, f k = Except.error e ∧ e.isTransient = true) →
      f 3 = Except.ok a →
      (retryRun f 5 1 32 u).result = Except.ok (some a) ∧
      (retryRun f 5 1 32 u).sleeps = [1 + u 0 * 1, 2 + u 1 * 2, 4 + u 2 * 4] ∧
      (retryRun f 5 1 32 u).calls = 4) := by
  constructor
  · constructor
    · have h1 : (1 : ℚ) = min ((2 : ℚ) ^ 0) 32 := by norm_num
      obtain ⟨n, hn⟩ := retryGo_sleeps_shape f u 5 0
      simp only [Nat.zero_add] at hn
      rw [retryRun, h1, hn]
      simp
    · intro k
      have hbase : (0 : ℚ) ≤ min ((2 : ℚ) ^ k) 32 := le_min (by positivity) (by norm_num)
      refine ⟨mul_nonneg (hu k).1 hbase, ?_⟩
      calc u k * min ((2 : ℚ) ^ k) 32 ≤ 1 / 10 * min ((2 : ℚ) ^ k) 32 :=
            mul_le_mul_of_nonneg_right (hu k).2 hbase
        _ = min ((2 : ℚ) ^ k) 32 / 10 := by ring
  · intro a hfail hok
    obtain ⟨e0, h0, t0⟩ := hfail 0 (by norm_num)
    obtain ⟨e1, h1, t1⟩ := hfail 1 (by norm_num)
    obtain ⟨e2, h2, t2⟩ := hfail 2 (by norm_num)
    refine ⟨?_, ?_, ?_⟩ <;>
      · simp [retryRun, retryGo, h0, t0, h1, t1, h2, t2, hok]
        try norm_num

/-- A wrapped call with 3 rate limits, then a success. -/
def threeFailThenOk : Nat → Except PyError Nat :=
  fun k => if k < 3 then Except.error PyError.rateLimitError else Except.ok 42

/-- A jitter draw of 1/20 (5%) before every sleep. -/
def smallJitter : Nat → ℚ := fun _ => 1 / 20

/-- Witness for C6 at a concrete call with 3 transient failures then a
success, with 5% jitter. -/
theorem retry_backoff_delay_schedule_witness :
    (retryRun threeFailThenOk 5 1 32 smallJitter).result = Except.ok (some 42) ∧
    (retryRun threeFailThenOk 5 1 32 smallJitter).sleeps =
      [1 + 1 / 20 * 1, 2 + 1 / 20 * 2, 4 + 1 / 20 * 4] ∧
    (retryRun threeFailThenOk 5 1 32 smallJitter).calls = 4 := by
  have h := (retry_backoff_delay_schedule threeFailThenOk smallJitter
    (fun k => by norm_num [smallJitter])).2 42
    (fun k hk => ⟨PyError.rateLimitError, by simp [threeFailThenOk, hk], rfl⟩)
    (by simp [threeFailThenOk])
  exact h

/-! ## C8: usage accounting -/

theorem findById_upsert (store : List SessionData) (d : SessionData) :
    findById (upsert store d) d.session_id = some d := by
  induction store with
  | nil => simp [upsert, findById]
  | cons x xs ih =>
    by_cases h : x.session_id == d.session_id
    · simp [upsert, findById, h]
    · simp only [upsert, h, if_false, Bool.false_eq_true]
      simpa [findById, List.find?_cons, h] using ih

theorem track_usage_step (store : List SessionData) (s : Session) (u : Usage) (now : String) :
    (track_usage store s u now).1.total_input_tokens = s.total_input_tokens + u.input_tokens ∧
    (track_usage store s u now).1.total_output_tokens = s.total_output_tokens + u.output_tokens ∧
    (track_usage store s u now).1.total_cost = s.total_cost + usageCost u ∧
    (track_usage store s u now).1.session_id = s.session_id := by
  simp [track_usage, save_session, usageCost, Session.to_dict]

/-- C8: Each tracked usage adds its input and output token counts to
the session totals and adds the incremental cost
input/1000 * 0.003 + output/1000 * 0.015 to total_cost, computed
stepwise per call, and the session is persisted immediately after each
update (the stored record under the session's id equals the snapshot of
the updated session); total_cost is the running sum of the per-call
incremental costs. Float arithmetic is modeled exactly in ℚ. -/
theorem track_usage_accumulates (store : List SessionData) (s : Session)
    (us : List Usage) (now : String) :
    (trackMany store s us now).1.total_input_tokens =
        s.total_input_tokens + (us.map Usage.input_tokens).sum ∧
    (trackMany store s us now).1.total_output_tokens =
        s.total_output_tokens + (us.map Usage.output_tokens).sum ∧
    (trackMany store s us now).1.total_cost = s.total_cost + (us.map usageCost).sum ∧
    (∀ (st : List SessionData) (u : Usage),
      (track_usage st s u now).1.total_cost = s.total_cost + usageCost u ∧
      findById (track_usage st s u now).2 s.session_id =
        some (track_usage st s u now).1.to_dict) := by
  refine ⟨?_, ?_, ?_, ?_⟩
  · induction us generalizing store s with
    | nil => simp [trackMany]
    | cons u rest ih =>
      have hstep := track_usage_step store s u now
      calc (trackMany store s (u :: rest) now).1.total_input_tokens
          = (trackMany (track_usage store s u now).2 (track_usage store s u now).1 rest now).1.total_input_tokens := rfl
        _ = (track_usage store s u now).1.total_input_tokens + (rest.map Usage.input_tokens).sum := by
            rw [ih]
        _ = s.total_input_tokens + ((u :: rest).map Usage.input_tokens).sum := by
            rw [hstep.1]; simp; ring
  · induction us generalizing store s with
    | nil => simp [trackMany]
    | cons u rest ih =>
      have hstep := track_usage_step store s u now
      calc (trackMany store s (u :: rest) now).1.total_output_tokens
          = (trackMany (track_usage store s u now).2 (track_usage store s u now).1 rest now).1.total_output_tokens := rfl
        _ = (track_usage store s u now).1.total_output_tokens + (rest.map Usage.output_tokens).sum := by
            rw [ih]
        _ = s.total_output_tokens + ((u :: rest).map Usage.output_tokens).sum := by
            rw [hstep.2.1]; simp; ring
  · induction us generalizing store s with
    | nil => simp [trackMany]
    | cons u rest ih =>
      have hstep := track_usage_step store s u now
      calc (trackMany store s (u :: rest) now).1.total_cost
          = (trackMany (track_usage store s u now).2 (track_usage store s u now).1 rest now).1.total_cost := rfl
        _ = (track_usage store s u now).1.total_cost + (rest.map usageCost).sum := by
            rw [ih]
        _ = s.total_cost + ((u :: rest).map usageCost).sum := by
            rw [hstep.2.2.1]; simp; ring
  · intro st u
    refine ⟨(track_usage_step st s u now).2.2.1, ?_⟩
    have h := findById_upsert st (track_usage st s u now).1.to_dict
    simpa [track_usage, save_session, Session.to_dict] using h

/-! ## C3: prompt id sequencing and rendering -/

theorem natDecAux_length_le :
    ∀ (fuel n k : Nat), n < fuel → 1 ≤ k → n < 10 ^ k →
      (natDecAux fuel n).length ≤ k := by
  intro fuel
  induction fuel with
  | zero => intro n k hn; omega
  | succ m ih =>
    intro n k hn hk hpow
    by_cases h10 : n < 10
    · simp [natDecAux, h10]
      omega
    · obtain ⟨j, rfl⟩ : ∃ j, k = j + 1 := ⟨k - 1, by omega⟩
      have hj : 1 ≤ j := by
        by_contra hj0
        have : j = 0 := by omega
        subst this
        simp at hpow
        omega
      have hdiv_fuel : n / 10 < m := by omega
      have hdiv_pow : n / 10 < 10 ^ j := by
        rw [Nat.div_lt_iff_lt_mul (by norm_num : 0 < 10)]
        calc n < 10 ^ (j + 1) := hpow
          _ = 10 ^ j * 10 := by rw [pow_succ]
      simp only [natDecAux, if_neg h10, List.length_append, List.length_cons,
        List.length_nil]
      have := ih (n / 10) j hdiv_fuel hj hdiv_pow
      omega

theorem natDecAux_length_ge :
    ∀ (fuel n k : Nat), n < fuel → 10 ^ k ≤ n →
      k + 1 ≤ (natDecAux fuel n).length := by
  intro fuel
  induction fuel with
  | zero => intro n k hn; omega
  | succ m ih =>
    intro n k hn hpow
    by_cases h10 : n < 10
    · simp only [natDecAux, if_pos h10, List.length_cons, List.length_nil]
      by_contra hcon
      have hk1 : 1 ≤ k := by omega
      have : 10 ≤ 10 ^ k := by
        calc (10 : Nat) = 10 ^ 1 := by norm_num
          _ ≤ 10 ^ k := Nat.pow_le_pow_right (by norm_num) hk1
      omega
    · rcases Nat.eq_zero_or_pos k with hk0 | hkpos
      · subst hk0
        simp [natDecAux, if_neg h10]
      · obtain ⟨j, rfl⟩ : ∃ j, k = j + 1 := ⟨k - 1, by omega⟩
        have hdiv_fuel : n / 10 < m := by omega
        have hdiv_pow : 10 ^ j ≤ n / 10 := by
          rw [Nat.le_div_iff_mul_le (by norm_num : 0 < 10)]
          calc 10 ^ j * 10 = 10 ^ (j + 1) := by rw [pow_succ]
            _ ≤ n := hpow
        simp only [natDecAux, if_neg h10, List.length_append, List.length_cons,
          List.length_nil]
        have := ih (n / 10) j hdiv_fuel hdiv_pow
        omega

theorem padZeros_length (w : Nat) (s : String) :
    (padZeros w s).length = max w s.length := by
  simp only [padZeros, String.length_append]
  have hmk : ∀ l : List Char, (String.mk l).length = l.length := fun l => rfl
  rw [hmk, List.length_replicate]
  omega

theorem pyFormat05_length (n : Int) (h0 : 0 ≤ n) :
    (pyFormat05 n).length = max 5 (natDecList n.toNat).length := by
  rw [pyFormat05, if_neg (by omega)]
  have hmk : ∀ l : List Char, (String.mk l).length = l.length := fun l => rfl
  rw [padZeros_length, hmk]

/-- The integer counter values produced by n successive
get_next_prompt_id calls on a session. -/
def nextIds (s : Session) : Nat → List Int
  | 0 => []
  | n + 1 =>
    ((Session.get_next_prompt_id s).1).last_prompt_id ::
      nextIds (Session.get_next_prompt_id s).1 n

theorem nextIds_closed :
    ∀ (n : Nat) (s : Session), nextIds s n =
      (List.range n).map (fun k : Nat => s.last_prompt_id + (k : Int) + 1) := by
  intro n
  induction n with
  | zero => intro s; simp [nextIds]
  | succ m ih =>
    intro s
    rw [nextIds, ih, List.range_succ_eq_map, List.map_cons, List.map_map]
    refine congrArg₂ List.cons (by simp [Session.get_next_prompt_id]) ?_
    apply List.map_congr_left
    intro k _
    simp only [Function.comp, Session.get_next_prompt_id]
    push_cast
    ring

/-- C3 counterexample: a session whose counter has reached 99999 (as
after 99999 asked questions) renders its next prompt id "100000", a
6-character string, so not every id is a 5-digit string. -/
def sessionAt99999 : Session :=
  { session_id := "sid-99999", conversation_id := "ABC123", name := "main",
    document_summary := "", message_window := [], created_at := "t0",
    last_accessed := "t0", window_size := 10, branch_info := none,
    last_prompt_id := 99999, total_input_tokens := 0, total_output_tokens := 0,
    total_cost := 0 }

/-- C3 counterexample: after the counter passes 99999 the rendered id
has 6 characters, refuting "each rendered as a 5-digit zero-padded
string" for every session and number of calls. -/
theorem prompt_id_sixth_digit_counterexample :
    ((Session.get_next_prompt_id sessionAt99999).2).length = 6 ∧
    ¬ ((Session.get_next_prompt_id sessionAt99999).2).length = 5 := by
  have hval : (Session.get_next_prompt_id sessionAt99999).2 = pyFormat05 100000 := rfl
  have hlen : (pyFormat05 100000).length = 6 := by
    rw [pyFormat05_length 100000 (by norm_num)]
    have htoNat : ((100000 : Int)).toNat = 100000 := rfl
    rw [htoNat]
    have hle : (natDecList 100000).length ≤ 6 :=
      natDecAux_length_le 100001 100000 6 (by norm_num) (by norm_num) (by norm_num)
    have hge : 6 ≤ (natDecList 100000).length :=
      natDecAux_length_ge 100001 100000 5 (by norm_num) (by norm_num)
    omega
  rw [hval, hlen]
  omega

/-- C3 (amended): successive get_next_prompt_id calls yield strictly
increasing integer counter values; each is rendered zero-padded to a
minimum width of 5 characters — exactly 5 characters as long as the
counter is at most 99999, more thereafter; and ask_question tags both
the user and the assistant message of a pair with the single id drawn
for that pair. -/
theorem prompt_id_monotone_and_padded (s : Session) (n : Nat) :
    (nextIds s n).Pairwise (fun a b => a < b) ∧
    (0 ≤ s.last_prompt_id →
      5 ≤ ((Session.get_next_prompt_id s).2).length ∧
      (s.last_prompt_id ≤ 99998 → ((Session.get_next_prompt_id s).2).length = 5)) ∧
    (∀ (store : List SessionData) (question answer now : String),
      (askQuestionUpdate store s question answer now).2.1.message_window =
        s.message_window ++
          [{ role := "user", content := question,
             prompt_id := some (askQuestionUpdate store s question answer now).2.2 },
           { role := "assistant", content := answer,
             prompt_id := some (askQuestionUpdate store s question answer now).2.2 }] ∧
      (askQuestionUpdate store s question answer now).2.2 =
        (Session.get_next_prompt_id s).2) := by
  refine ⟨?_, ?_, ?_⟩
  · rw [nextIds_closed]
    exact (List.pairwise_lt_range n).map _ (fun a b hab => by omega)
  · intro h0
    have hval : (Session.get_next_prompt_id s).2 = pyFormat05 (s.last_prompt_id + 1) := rfl
    rw [hval, pyFormat05_length _ (by omega)]
    constructor
    · omega
    · intro hle
      have h100 : (10 : Nat) ^ 5 = 100000 := by norm_num
      have hbound : (s.last_prompt_id + 1).toNat < 10 ^ 5 := by omega
      have hthis : (natDecList (s.last_prompt_id + 1).toNat).length ≤ 5 :=
        natDecAux_length_le ((s.last_prompt_id + 1).toNat + 1)
          (s.last_prompt_id + 1).toNat 5 (by omega) (by norm_num) hbound
      omega
  · intro store question answer now
    constructor
    · simp [askQuestionUpdate, save_session, Session.get_next_prompt_id]
    · rfl

/-- A fresh session with counter 0 for the C3 witness. -/
def freshMainSession : Session :=
  { session_id := "sid-0", conversation_id := "QWERTY", name := "main",
    document_summary := "", message_window := [], created_at := "t0",
    last_accessed := "t0", window_size := 10, branch_info := none,
    last_prompt_id := 0, total_input_tokens := 0, total_output_tokens := 0,
    total_cost := 0 }

/-- Witness for the amended C3 at a fresh session. -/
theorem prompt_id_monotone_and_padded_witness :
    (nextIds freshMainSession 3).Pairwise (fun a b => a < b) ∧
    ((Session.get_next_prompt_id freshMainSession).2).length = 5 ∧
    (askQuestionUpdate [] freshMainSession "q" "a" "t1").2.2 =
      (Session.get_next_prompt_id freshMainSession).2 := by
  have h := prompt_id_monotone_and_padded freshMainSession 3
  exact ⟨h.1, (h.2.1 (by decide)).2 (by decide),
    (h.2.2 [] "q" "a" "t1").2⟩

/-! ## C1: context window selection -/

/-- A question/answer pair rendered as its two stored messages. -/
def pairMsgs (p : Msg × Msg) : List Msg := [p.1, p.2]

/-- A message window consisting of consecutive question/answer pairs. -/
def joinPairs (pairs : List (Msg × Msg)) : List Msg := (pairs.map pairMsgs).flatten

theorem joinPairs_cons (p : Msg × Msg) (ps : List (Msg × Msg)) :
    joinPairs (p :: ps) = p.1 :: p.2 :: joinPairs ps := rfl

theorem joinPairs_length (pairs : List (Msg × Msg)) :
    (joinPairs pairs).length = 2 * pairs.length := by
  induction pairs with
  | nil => simp [joinPairs]
  | cons p ps ih =>
    rw [joinPairs_cons]
    simp only [List.length_cons, ih]
    omega

theorem joinPairs_drop (pairs : List (Msg × Msg)) :
    ∀ k, joinPairs (pairs.drop k) = (joinPairs pairs).drop (2 * k) := by
  induction pairs with
  | nil => intro k; simp [joinPairs]
  | cons p ps ih =>
    intro k
    cases k with
    | zero => simp
    | succ j =>
      have h2 : 2 * (j + 1) = 2 * j + 1 + 1 := by omega
      rw [List.drop_succ_cons, ih j, joinPairs_cons, h2, List.drop_succ_cons,
        List.drop_succ_cons]

/-- Every slice l[start:] is a drop, hence a suffix of the original list. -/
theorem pySliceFrom_eq_drop {α : Type} (l : List α) (start : Int) :
    ∃ k, pySliceFrom l start = l.drop k := by
  unfold pySliceFrom
  split
  · exact ⟨_, rfl⟩
  · exact ⟨_, rfl⟩

/-- A session holding 2 stored question/answer pairs with
window_size = 2 (the session field, as ask_question reads it). -/
def sessionTwoPairsW2 : Session :=
  { session_id := "sid-2", conversation_id := "AAAAAA", name := "main",
    document_summary := "", created_at := "t0", last_accessed := "t0",
    message_window :=
      [{ role := "user", content := "q1", prompt_id := some "00001" },
       { role := "assistant", content := "a1", prompt_id := some "00001" },
       { role := "user", content := "q2", prompt_id := some "00002" },
       { role := "assistant", content := "a2", prompt_id := some "00002" }],
    window_size := 2, branch_info := none, last_prompt_id := 2,
    total_input_tokens := 0, total_output_tokens := 0, total_cost := 0 }

/-- C1 counterexample: with N = 2 stored pairs and window_size = 2 the
built context holds the last 2 messages (1 pair), not
2 * min(N, window_size) = 4 messages as the claim states: window_size
counts messages at slice time, not pairs. -/
theorem context_window_pairs_counterexample :
    (contextSlice sessionTwoPairsW2).length = 2 ∧
    ¬ (contextSlice sessionTwoPairsW2).length = 2 * min 2 2 ∧
    contextSlice sessionTwoPairsW2 =
      [{ role := "user", content := "q2", prompt_id := some "00002" },
       { role := "assistant", content := "a2", prompt_id := some "00002" }] := by
  refine ⟨by decide, by decide, by decide⟩

/-- C1 (amended): the context built for the next request consists of
the last min(M, window_size) stored messages, where M is the length of
message_window and window_size (> 0) counts messages, taken from the
end in original chronological order with roles preserved (it is a
suffix of message_window); when the window consists of N whole pairs
and window_size = 2 * P (as set by the /ld P command), the context is
exactly the last min(N, P) whole pairs. -/
theorem context_window_selection (s : Session) (hW : 0 < s.window_size) :
    contextSlice s =
      s.message_window.drop
        (s.message_window.length - min s.window_size.toNat s.message_window.length) ∧
    (contextSlice s).length = min s.window_size.toNat s.message_window.length ∧
    (∃ p, s.message_window = p ++ contextSlice s) ∧
    (∀ (pairs : List (Msg × Msg)) (P : Nat),
      s.message_window = joinPairs pairs → s.window_size = 2 * (P : Int) →
      contextSlice s = joinPairs (pairs.drop (pairs.length - min pairs.length P)) ∧
      (pairs.drop (pairs.length - min pairs.length P)).length = min pairs.length P) := by
  have hneg : -s.window_size < 0 := by omega
  have htoNat : (-(-s.window_size)).toNat = s.window_size.toNat := by rw [neg_neg]
  have hslice : contextSlice s =
      s.message_window.drop
        (s.message_window.length - min s.window_size.toNat s.message_window.length) := by
    rw [contextSlice, pySliceFrom, if_pos hneg, htoNat]
  refine ⟨hslice, ?_, ?_, ?_⟩
  · rw [hslice, List.length_drop]
    omega
  · refine ⟨s.message_window.take
      (s.message_window.length - min s.window_size.toNat s.message_window.length), ?_⟩
    rw [hslice]
    exact (List.take_append_drop _ _).symm
  · intro pairs P hmw hP
    have hws : s.window_size.toNat = 2 * P := by omega
    have hlen : s.message_window.length = 2 * pairs.length := by
      rw [hmw, joinPairs_length]
    have harith : s.message_window.length -
        min s.window_size.toNat s.message_window.length =
        2 * (pairs.length - min pairs.length P) := by
      rw [hws, hlen]
      omega
    constructor
    · rw [hslice, harith, hmw, joinPairs_drop]
    · rw [List.length_drop]
      omega

/-- A session holding 2 stored pairs with window_size = 4 (as set by
the /ld 2 command), for the C1 witness. -/
def sessionTwoPairsW4 : Session :=
  { sessionTwoPairsW2 with window_size := 4 }

/-- Witness for the amended C1: 2 stored pairs, window_size 4 = 2 * 2,
context is both pairs (4 messages). -/
theorem context_window_selection_witness :
    (contextSlice sessionTwoPairsW4).length = 4 ∧
    contextSlice sessionTwoPairsW4 = joinPairs
      [({ role := "user", content := "q1", prompt_id := some "00001" },
        { role := "assistant", content := "a1", prompt_id := some "00001" }),
       ({ role := "user", content := "q2", prompt_id := some "00002" },
        { role := "assistant", content := "a2", prompt_id := some "00002" })] := by
  have h := context_window_selection sessionTwoPairsW4 (by decide)
  have hpairs := h.2.2.2
    [({ role := "user", content := "q1", prompt_id := some "00001" },
      { role := "assistant", content := "a1", prompt_id := some "00001" }),
     ({ role := "user", content := "q2", prompt_id := some "00002" },
      { role := "assistant", content := "a2", prompt_id := some "00002" })] 2
    (by decide) (by decide)
  refine ⟨?_, ?_⟩
  · rw [h.2.1]; decide
  · rw [hpairs.1]; decide

/-! ## C9: message_window storage and truncation -/

/-- A session holding 3 stored messages, for the C9 counterexample. -/
def sessionThreeMsgs : Session :=
  { session_id := "sid-3", conversation_id := "BBBBBB", name := "main",
    document_summary := "", created_at := "t0", last_accessed := "t0",
    message_window :=
      [{ role := "user", content := "q1", prompt_id := some "00001" },
       { role := "assistant", content := "a1", prompt_id := some "00001" },
       { role := "user", content := "q2", prompt_id := some "00002" }],
    window_size := 10, branch_info := none, last_prompt_id := 2,
    total_input_tokens := 0, total_output_tokens := 0, total_cost := 0 }

/-- C9 counterexample: reload_documents with context window 2 on a
session holding 3 stored messages leaves only the last 2 messages in
the stored (and persisted) message_window: a core operation does remove
messages from storage. -/
theorem reload_truncates_storage_counterexample :
    sessionThreeMsgs.message_window.length = 3 ∧
    (reload_documents [] sessionThreeMsgs (some 2) "sum" "t1").2.message_window =
      [{ role := "assistant", content := "a1", prompt_id := some "00001" },
       { role := "user", content := "q2", prompt_id := some "00002" }] ∧
    ¬ (reload_documents [] sessionThreeMsgs (some 2) "sum" "t1").2.message_window =
        sessionThreeMsgs.message_window := by
  refine ⟨by decide, by decide, by decide⟩

/-- C9 (amended): the ask path only appends to the stored
message_window (the previous history is a prefix of the new one), and
the request-time context is a pure derived view (a suffix of storage,
computed without mutating it); reload_documents, however, destructively
replaces the stored message_window with its last `window` messages
(window = the given context window if nonzero, else 10) and persists
that truncation. -/
theorem history_append_only_except_reload (store : List SessionData) (s : Session)
    (question answer now newSummary : String) (w : Int) (hw : 0 < w) :
    (askQuestionUpdate store s question answer now).2.1.message_window =
      s.message_window ++
        [{ role := "user", content := question,
           prompt_id := some (askQuestionUpdate store s question answer now).2.2 },
         { role := "assistant", content := answer,
           prompt_id := some (askQuestionUpdate store s question answer now).2.2 }] ∧
    (∃ p, s.message_window = p ++ contextSlice s) ∧
    (reload_documents store s (some w) newSummary now).2.message_window =
      s.message_window.drop
        (s.message_window.length - min w.toNat s.message_window.length) := by
  refine ⟨?_, ?_, ?_⟩
  · simp [askQuestionUpdate, save_session, Session.get_next_prompt_id]
  · obtain ⟨k, hk⟩ := pySliceFrom_eq_drop s.message_window (-s.window_size)
    rw [contextSlice, hk]
    exact ⟨_, (List.take_append_drop _ _).symm⟩
  · have hw0 : ¬ w = 0 := by omega
    have hneg : -w < 0 := by omega
    simp only [reload_documents, hw0, if_false, save_session, pySliceFrom,
      if_pos hneg, neg_neg]

/-- Witness for the amended C9 at a concrete session and window 2. -/
theorem history_append_only_except_reload_witness :
    (askQuestionUpdate [] sessionThreeMsgs "q" "a" "t1").2.1.message_window.length = 5 ∧
    (reload_documents [] sessionThreeMsgs (some 2) "sum" "t1").2.message_window =
      sessionThreeMsgs.message_window.drop 1 := by
  have h := history_append_only_except_reload [] sessionThreeMsgs "q" "a" "t1" "sum" 2
    (by norm_num)
  refine ⟨?_, ?_⟩
  · rw [h.1]; decide
  · rw [h.2.2]; decide

/-! ## C10: serialization round-trip -/

theorem foldl_max_mem (x : Int) (xs : List Int) : xs.foldl max x ∈ x :: xs := by
  induction xs generalizing x with
  | nil => simp
  | cons y ys ih =>
    rw [List.foldl_cons]
    rcases List.mem_cons.1 (ih (max x y)) with h1 | h1
    · rcases max_choice x y with hc | hc <;> rw [h1, hc] <;> simp
    · simp [h1]

theorem le_foldl_max (x : Int) (xs : List Int) : x ≤ xs.foldl max x := by
  induction xs generalizing x with
  | nil => simp
  | cons y ys ih =>
    rw [List.foldl_cons]
    exact le_trans (le_max_left x y) (ih (max x y))

theorem foldl_max_le (x : Int) (xs : List Int) : ∀ y ∈ x :: xs, y ≤ xs.foldl max x := by
  induction xs generalizing x with
  | nil =>
    intro y hy
    simp at hy
    simp [hy]
  | cons z zs ih =>
    intro y hy
    rw [List.foldl_cons]
    rcases List.mem_cons.1 hy with h1 | h1
    · subst h1
      exact le_trans (le_max_left y z) (le_foldl_max _ _)
    · rcases List.mem_cons.1 h1 with h2 | h2
      · subst h2
        exact le_trans (le_max_right x y) (le_foldl_max _ _)
      · exact ih (max x z) y (List.mem_cons_of_mem _ h2)

/-- C10: For every session with a positive last_prompt_id,
from_dict(to_dict(session)) reproduces the session exactly (every field
is serialized and read back); but when a serialized record carries
last_prompt_id = 0 and a non-empty message_window, from_dict instead
recomputes last_prompt_id as the maximum prompt id among the user
messages, defaulting to 0 when the ids are malformed (parse failure or
missing key) or no user message exists. -/
theorem session_roundtrip (cid : String) (s : Session) (data : SessionData) :
    (0 < s.last_prompt_id → Session.from_dict cid s.to_dict = s) ∧
    (data.last_prompt_id = some 0 → data.message_window ≠ [] →
      (match userPromptIds data.message_window with
       | .ok [] => (Session.from_dict cid data).last_prompt_id = 0
       | .ok (x :: xs) =>
         (Session.from_dict cid data).last_prompt_id ∈ x :: xs ∧
         ∀ y ∈ x :: xs, y ≤ (Session.from_dict cid data).last_prompt_id
       | .error _ => (Session.from_dict cid data).last_prompt_id = 0)) := by
  constructor
  · intro hpos
    cases s with
    | mk sid cvid nm summ mw ca la ws bi lp tin tout tcost =>
      simp only [Session.last_prompt_id] at hpos
      simp only [Session.to_dict, Session.from_dict, Option.getD_some]
      rw [if_neg (fun hcon => absurd hcon.1 (by omega))]
  · intro hlp hmw
    simp only [Session.from_dict, hlp, Option.getD_some]
    rw [if_pos ⟨trivial, hmw⟩]
    unfold maxUserPromptId
    cases hids : userPromptIds data.message_window with
    | error e => simp [hids]
    | ok l =>
      cases l with
      | nil => simp [hids]
      | cons x xs =>
        simp only [hids]
        exact ⟨foldl_max_mem x xs, foldl_max_le x xs⟩

/-- A session with a positive counter for the C10 witness. -/
def roundtripSession : Session :=
  { session_id := "sid-rt", conversation_id := "CCCCCC", name := "demo",
    document_summary := "summary", created_at := "t0", last_accessed := "t1",
    message_window :=
      [{ role := "user", content := "q1", prompt_id := some "00001" },
       { role := "assistant", content := "a1", prompt_id := some "00001" }],
    window_size := 10, branch_info := none, last_prompt_id := 3,
    total_input_tokens := 17, total_output_tokens := 5, total_cost := 1 / 4 }

/-- A serialized record with a zero counter and one user message with
prompt id "00007", for the C10 witness. -/
def staleCounterData : SessionData :=
  { session_id := "sid-sc", conversation_id := some "DDDDDD", name := "demo2",
    document_summary := "", message_window :=
      [{ role := "user", content := "q", prompt_id := some "00007" },
       { role := "assistant", content := "a", prompt_id := some "00007" }],
    created_at := "t0", last_accessed := "t0", window_size := some 10,
    branch_info := none, last_prompt_id := some 0,
    total_input_tokens := some 0, total_output_tokens := some 0,
    total_cost := some 0 }

/-- Witness for C10: exact round-trip at a concrete session with
counter 3, and counter recomputation (to 7) at a concrete stale record. -/
theorem session_roundtrip_witness :
    Session.from_dict "ZZZZZZ" roundtripSession.to_dict = roundtripSession ∧
    (Session.from_dict "ZZZZZZ" staleCounterData).last_prompt_id = 7 := by
  have h := session_roundtrip "ZZZZZZ" roundtripSession staleCounterData
  refine ⟨h.1 (by decide), ?_⟩
  have h2 := h.2 rfl (by decide)
  rw [show userPromptIds staleCounterData.message_window = Except.ok [(7 : Int)] from rfl] at h2
  simpa using h2.1

/-! ## C7: create_new recovers the counter from history -/

theorem from_dict_name (cid : String) (data : SessionData) :
    (Session.from_dict cid data).name = data.name := by
  simp only [Session.from_dict]
  split
  · split <;> rfl
  · rfl

/-- C7: For every persisted record found under the requested name whose
reconstituted message_window is non-empty and whose user messages carry
parseable prompt ids (with at least one user message), create_new
returns the reconstituted session with last_prompt_id replaced by the
maximum prompt id among the stored user messages — regardless of the
persisted counter value. -/
theorem create_new_recovers_counter (store : List SessionData)
    (freshId cid now : String) (convWindow : List Msg) (convIds : List Int)
    (name summary : String) (lpid0 : Int) (data : SessionData) (ids : List Int)
    (hfind : store.find? (fun d => d.name == name) = some data)
    (hne : (Session.from_dict cid data).message_window ≠ [])
    (hids : userPromptIds (Session.from_dict cid data).message_window = Except.ok ids)
    (hne2 : ids ≠ []) :
    ∃ s', Session.create_new store freshId cid now convWindow convIds name summary lpid0 =
        Except.ok s' ∧
      s'.last_prompt_id ∈ ids ∧
      (∀ y ∈ ids, y ≤ s'.last_prompt_id) ∧
      s' = { Session.from_dict cid data with last_prompt_id := s'.last_prompt_id } := by
  cases ids with
  | nil => exact absurd rfl hne2
  | cons x xs =>
    refine ⟨{ Session.from_dict cid data with last_prompt_id := xs.foldl max x }, ?_, ?_, ?_, rfl⟩
    · unfold Session.create_new
      rw [hfind]
      simp only [if_pos hne, maxUserPromptId, hids]
    · exact foldl_max_mem x xs
    · exact foldl_max_le x xs

/-- A persisted record named "proj" with user prompt ids 2 and 5 and a
stale stored counter of 1, for the C7 witness. -/
def staleProjData : SessionData :=
  { session_id := "sid-proj", conversation_id := some "EEEEEE", name := "proj",
    document_summary := "", message_window :=
      [{ role := "user", content := "q1", prompt_id := some "00002" },
       { role := "assistant", content := "a1", prompt_id := some "00002" },
       { role := "user", content := "q2", prompt_id := some "00005" },
       { role := "assistant", content := "a2", prompt_id := some "00005" }],
    created_at := "t0", last_accessed := "t0", window_size := some 10,
    branch_info := none, last_prompt_id := some 1,
    total_input_tokens := some 0, total_output_tokens := some 0,
    total_cost := some 0 }

/-- Witness for C7: create_new on the name "proj" returns the
reconstituted session with last_prompt_id = 5 (the maximum user prompt
id), not the stale stored counter 1. -/
theorem create_new_recovers_counter_witness :
    Session.create_new [staleProjData] "fid" "cid0" "t1" [] [] "proj" "sum" 0 =
      Except.ok { Session.from_dict "cid0" staleProjData with last_prompt_id := 5 } := by
  obtain ⟨s', hok, hmem, hub, heq⟩ :=
    create_new_recovers_counter [staleProjData] "fid" "cid0" "t1" [] [] "proj" "sum" 0
      staleProjData [2, 5] (by decide) (by decide) rfl (by decide)
  have hlp : s'.last_prompt_id = 5 := by
    have h5 : (5 : Int) ≤ s'.last_prompt_id := hub 5 (by simp)
    rcases List.mem_cons.1 hmem with h1 | h1
    · omega
    · have : s'.last_prompt_id = 5 := by simpa using h1
      exact this
  rw [hlp] at heq
  rw [hok, heq]

/-! ## C4: branching with history copy -/

theorem create_new_name (store : List SessionData) (freshId cid now : String)
    (convWindow : List Msg) (convIds : List Int) (name summary : String) (lp : Int)
    (s' : Session)
    (h : Session.create_new store freshId cid now convWindow convIds name summary lp =
      Except.ok s') :
    s'.name = name := by
  simp only [Session.create_new] at h
  cases hfind : store.find? (fun d => d.name == name) with
  | none =>
    rw [hfind] at h
    simp only [Except.ok.injEq] at h
    rw [← h]
  | some data =>
    rw [hfind] at h
    have hdn : data.name = name := by
      have hp := List.find?_some hfind
      simpa using hp
    have h' : (if (Session.from_dict cid data).message_window ≠ [] then
        match maxUserPromptId (Session.from_dict cid data).message_window with
        | Except.ok m =>
          Except.ok { Session.from_dict cid data with last_prompt_id := m }
        | Except.error e => Except.error e
      else Except.ok (Session.from_dict cid data)) = Except.ok s' := h
    by_cases hmw : (Session.from_dict cid data).message_window ≠ []
    · rw [if_pos hmw] at h'
      cases hmax : maxUserPromptId (Session.from_dict cid data).message_window with
      | ok m =>
        rw [hmax] at h'
        simp only [Except.ok.injEq] at h'
        rw [← h']
        rw [show ({ Session.from_dict cid data with last_prompt_id := m } : Session).name =
          (Session.from_dict cid data).name from rfl, from_dict_name]
        exact hdn
      | error e =>
        rw [hmax] at h'
        simp at h'
    · rw [if_neg hmw] at h'
      simp only [Except.ok.injEq] at h'
      rw [← h', from_dict_name]
      exact hdn

theorem heapGet_set_ne (hp : MsgHeap) (i j : Nat) (x : List Msg) (hij : i ≠ j) :
    heapGet (hp.set i x) j = heapGet hp j := by
  simp [heapGet, List.getD_eq_getElem?_getD, List.getElem?_set_ne hij]

theorem heapGet_concat_self (hp : MsgHeap) (w : List Msg) :
    heapGet (hp ++ [w]) hp.length = w := by
  simp [heapGet, List.getD_eq_getElem?_getD, List.getElem?_concat_length]

theorem heapGet_append_lt (hp : MsgHeap) (w : List Msg) (p : Nat) (h : p < hp.length) :
    heapGet (hp ++ [w]) p = heapGet hp p := by
  simp [heapGet, List.getD_eq_getElem?_getD, List.getElem?_append, h]

/-- C4: For every parent session, create_branch with a valid branch
name and include_history (given that the underlying create_new call
returns a session rather than raising) returns a session named
parent_name/branch_name whose branch_info.parent_id is the parent's
session_id and whose message_window equals the parent's at fork time;
and, at the reference level, the copy allocates a fresh list object, so
a subsequent append to either session's window leaves the other's
window unchanged. -/
theorem create_branch_forks (store : List SessionData) (s : Session)
    (branch_name freshId cid now : String)
    (convWindow : List Msg) (convIds : List Int) (ns0 : Session)
    (hsep : branch_name.data.contains '/' = false)
    (hnew : Session.create_new store freshId cid now convWindow convIds
        (s.name ++ "/" ++ branch_name) s.document_summary 0 = Except.ok ns0) :
    (∃ ns, Session.create_branch store s branch_name true freshId cid now convWindow convIds =
        Except.ok ns ∧
      ns.name = s.name ++ "/" ++ branch_name ∧
      ns.branch_info = some { branch_name := branch_name, parent_id := s.session_id,
                              created_at := now, document_hash := none } ∧
      ns.message_window = s.message_window) ∧
    (∀ (h : MsgHeap) (parentRef : Nat), parentRef < h.length →
      heapGet (branchWindowCopy h parentRef).1 (branchWindowCopy h parentRef).2 =
        heapGet h parentRef ∧
      (∀ m, heapGet (heapAppend (branchWindowCopy h parentRef).1
          (branchWindowCopy h parentRef).2 m) parentRef = heapGet h parentRef) ∧
      (∀ m, heapGet (heapAppend (branchWindowCopy h parentRef).1 parentRef m)
          (branchWindowCopy h parentRef).2 = heapGet h parentRef)) := by
  constructor
  · refine ⟨{ ns0 with
        branch_info := some { branch_name := branch_name, parent_id := s.session_id,
                              created_at := now, document_hash := none },
        message_window := s.message_window }, ?_, ?_, rfl, rfl⟩
    · simp only [Session.create_branch, hsep, Bool.false_eq_true, if_false, hnew, if_true]
    · exact create_new_name store freshId cid now convWindow convIds
        (s.name ++ "/" ++ branch_name) s.document_summary 0 ns0 hnew
  · intro h p hp
    have hlen : (branchWindowCopy h p).2 = h.length := rfl
    have hfst : (branchWindowCopy h p).1 = h ++ [heapGet h p] := rfl
    refine ⟨heapGet_concat_self h (heapGet h p), ?_, ?_⟩
    · intro m
      rw [heapAppend, hlen, hfst, heapGet_set_ne _ _ _ _ (by omega),
        heapGet_append_lt h (heapGet h p) p hp]
    · intro m
      rw [heapAppend, hlen, hfst, heapGet_set_ne _ _ _ _ (by omega),
        heapGet_concat_self h (heapGet h p)]

/-- The fresh session produced by create_new for the branch name
"main/alt" in the C4 witness (empty store, no conversation files). -/
def altBranchBase : Session :=
  { session_id := "fid2", conversation_id := "cid2", name := "main" ++ "/" ++ "alt",
    document_summary := "", message_window := [], created_at := "t2",
    last_accessed := "t2", window_size := DEFAULT_CONTEXT_WINDOW,
    branch_info := none, last_prompt_id := 0, total_input_tokens := 0,
    total_output_tokens := 0, total_cost := 0 }

/-- Witness for C4: branching sessionThreeMsgs (named "main") as "alt"
yields a session named "main/alt" with the parent's window and
parent_id "sid-3"; appending to the freshly copied window cell leaves
the parent's cell unchanged. -/
theorem create_branch_forks_witness :
    (Session.create_branch [] sessionThreeMsgs "alt" true "fid2" "cid2" "t2" [] []).map
        (fun ns => (ns.name, ns.message_window, ns.branch_info.map BranchInfo.parent_id)) =
      Except.ok ("main/alt", sessionThreeMsgs.message_window, some "sid-3") ∧
    heapGet (heapAppend (branchWindowCopy [[]] 0).1 (branchWindowCopy [[]] 0).2
      { role := "user", content := "x", prompt_id := none }) 0 = ([] : List Msg) := by
  have h := create_branch_forks [] sessionThreeMsgs "alt" "fid2" "cid2" "t2" [] []
    altBranchBase (by decide) rfl
  obtain ⟨ns, hok, hname, hbi, hmw⟩ := h.1
  constructor
  · rw [hok, Except.map]
    simp only [Except.ok.injEq, Prod.mk.injEq]
    refine ⟨by rw [hname]; decide, hmw, by rw [hbi]; decide⟩
  · rw [(h.2 [[]] 0 (by decide)).2.1 _]
    decide

/-! ## C5: branch names containing the separator are rejected -/

/-- C5: For every session and every branch name containing "/",
DocumentProcessor.create_branch raises the validation error before any
session is created or any file written: the call yields no new session
and no store update. -/
theorem branch_separator_rejected (store : List SessionData) (s : Session)
    (branch_name : String) (include_history : Bool)
    (freshId cid now : String) (convWindow : List Msg) (convIds : List Int)
    (hsep : branch_name.data.contains '/' = true) :
    dpCreateBranch store s branch_name include_history freshId cid now convWindow convIds =
      Except.error (PyError.valueError "Branch name cannot contain /") ∧
    ∀ result, dpCreateBranch store s branch_name include_history freshId cid now
        convWindow convIds ≠ Except.ok result := by
  have h1 : Session.create_branch store s branch_name include_history freshId cid now
      convWindow convIds = Except.error (PyError.valueError "Branch name cannot contain /") := by
    unfold Session.create_branch
    rw [if_pos hsep]
  have hmain : dpCreateBranch store s branch_name include_history freshId cid now
      convWindow convIds = Except.error (PyError.valueError "Branch name cannot contain /") := by
    simp only [dpCreateBranch, h1]
  refine ⟨hmain, ?_⟩
  intro result hcon
  rw [hmain] at hcon
  exact Except.noConfusion hcon

/-- Witness for C5: the branch name "a/b" is rejected on a concrete
session and empty store. -/
theorem branch_separator_rejected_witness :
    dpCreateBranch [] sessionThreeMsgs "a/b" true "f" "c" "t" [] [] =
      Except.error (PyError.valueError "Branch name cannot contain /") := by
  exact (branch_separator_rejected [] sessionThreeMsgs "a/b" true "f" "c" "t" [] []
    (by decide)).1

end Forkify
